import Mathlib

/-!
# SceneManager: texture registry, material registry, transform composer, shader bridge

A shallow embedding of `Source/SceneManager.cpp`.

* Scalars (`float` in the source) are elements of an arbitrary type `R`; where
  arithmetic is needed `R` is a commutative ring and arithmetic is exact
  (rounding is not modelled).
* `std::string` is `String`; `a.compare(b) == 0` is string equality.
* `m_textureIDs[i]` is an indexed access into a fixed block of storage: an
  index outside the storage is a fault (`Fault.outOfBounds`).
* Dereferencing a null `m_pShaderManager` is a fault (`Fault.nullDereference`).
-/

namespace SceneManager

/-! ## Data model -/

/-- Run-time faults of the C++ program that the embedding makes explicit. -/
inductive Fault where
  | nullDereference
  | outOfBounds
  deriving DecidableEq, Repr

/-- The type `glm::vec2`. -/
@[ext] structure Vec2 (R : Type) where
  x : R
  y : R
  deriving DecidableEq, Repr

/-- The type `glm::vec3`. -/
@[ext] structure Vec3 (R : Type) where
  x : R
  y : R
  z : R
  deriving DecidableEq, Repr

/-- The type `glm::vec4`. -/
@[ext] structure Vec4 (R : Type) where
  x : R
  y : R
  z : R
  w : R
  deriving DecidableEq, Repr

/-- The type `glm::mat4`: four columns (`m[0]` .. `m[3]`), column-major as in GLM. -/
@[ext] structure Mat4 (R : Type) where
  c0 : Vec4 R
  c1 : Vec4 R
  c2 : Vec4 R
  c3 : Vec4 R
  deriving DecidableEq, Repr

/-- The struct `TEXTURE_INFO` (declared in the header): a GL texture name and its tag. -/
structure TEXTURE_INFO where
  ID : Nat
  tag : String
  deriving DecidableEq, Repr

/-- The struct `OBJECT_MATERIAL` (declared in the header), with the fields the
source reads and writes. -/
structure OBJECT_MATERIAL (R : Type) where
  ambientColor : Vec3 R
  ambientStrength : R
  diffuseColor : Vec3 R
  specularColor : Vec3 R
  shininess : R
  tag : String
  deriving DecidableEq, Repr

/-- A value written to a shader uniform through one of the `ShaderManager` setters. -/
inductive UniformValue (R : Type) where
  | int (i : Int)
  | bool (b : Bool)
  | float (x : R)
  | vec2 (v : Vec2 R)
  | vec3 (v : Vec3 R)
  | vec4 (v : Vec4 R)
  | mat4 (m : Mat4 R)
  | sampler2D (slot : Int)
  deriving DecidableEq, Repr

/-- Modelled from the spec: the class `ShaderManager` (the shader program, an
external collaborator exposing named-uniform setters; the core only ever
writes, never reads, shader state). Its state is the sequence of uniform
writes it has received, newest first. -/
structure ShaderManager (R : Type) where
  writes : List (String × UniformValue R)
  deriving DecidableEq, Repr

/-- Modelled from the spec: every `set*Value(name, value)` setter of
`ShaderManager` records one write of `value` to the uniform `name`. -/
def ShaderManager.setValue {R : Type} (sh : ShaderManager R) (name : String)
    (v : UniformValue R) : ShaderManager R :=
  { writes := (name, v) :: sh.writes }

/-- The current value of the uniform `name`: the newest write to it, if any. -/
def ShaderManager.uniform {R : Type} (sh : ShaderManager R) (name : String) :
    Option (UniformValue R) :=
  (sh.writes.find? (fun w => w.1 == name)).map (fun w => w.2)

/-- The OpenGL context, as far as texture objects go: the texture names that
are currently in use (generated and not deleted). -/
structure GLContext where
  textures : List Nat
  deriving DecidableEq, Repr

/-- The call `glGenTextures(1, &id)`: returns a texture name that is not in use
(one more than every name in use) and marks it as in use. -/
def glGenTextures (gl : GLContext) : Nat × GLContext :=
  let id := gl.textures.foldl max 0 + 1
  (id, { textures := id :: gl.textures })

/-- What `stbi_load` yields for a file it can decode. -/
structure Image where
  width : Int
  height : Int
  colorChannels : Int
  deriving DecidableEq, Repr

/-- The state of a `SceneManager` object together with the OpenGL context it
works in. `m_pShaderManager = none` is the null pointer. `m_textureIDs` is the
whole storage block of the texture table (its length is the capacity declared
in the header); the registered entries are its first `m_loadedTextures` ones. -/
structure State (R : Type) where
  m_pShaderManager : Option (ShaderManager R)
  m_textureIDs : List TEXTURE_INFO
  m_loadedTextures : Nat
  m_objectMaterials : List (OBJECT_MATERIAL R)
  gl : GLContext

/-- Global uniform name `g_ModelName`. -/
def g_ModelName : String := "model"
/-- Global uniform name `g_ColorValueName`. -/
def g_ColorValueName : String := "objectColor"
/-- Global uniform name `g_TextureValueName`. -/
def g_TextureValueName : String := "objectTexture"
/-- Global uniform name `g_UseTextureName`. -/
def g_UseTextureName : String := "bUseTexture"
/-- Global uniform name `g_UseLightingName`. -/
def g_UseLightingName : String := "bUseLighting"

/-! ## Texture registry -/

/-- The `while` loop of `FindTextureSlot`, started from the given values of the
locals `textureSlot`, `index` and `bFound`; yields the final `textureSlot`. -/
def FindTextureSlot.loop (m_textureIDs : List TEXTURE_INFO) (m_loadedTextures : Nat)
    (tag : String) (textureSlot : Int) (index : Nat) (bFound : Bool) : Except Fault Int :=
  if h : index < m_loadedTextures ∧ bFound = false then
    match m_textureIDs[index]? with
    | none => .error .outOfBounds
    | some e =>
      if e.tag = tag then
        FindTextureSlot.loop m_textureIDs m_loadedTextures tag (index : Int) index true
      else
        FindTextureSlot.loop m_textureIDs m_loadedTextures tag textureSlot (index + 1) false
  else
    .ok textureSlot
termination_by (if bFound then 0 else 1 + (m_loadedTextures - index))
decreasing_by
  all_goals simp_wf
  all_goals simp only [h.2, Bool.false_eq_true, if_false]
  all_goals omega

/-- The method `SceneManager::FindTextureSlot`. -/
def FindTextureSlot {R : Type} (s : State R) (tag : String) : Except Fault Int :=
  FindTextureSlot.loop s.m_textureIDs s.m_loadedTextures tag (-1) 0 false

/-- The `while` loop of `FindTextureID`, with locals `textureID`, `index`, `bFound`. -/
def FindTextureID.loop (m_textureIDs : List TEXTURE_INFO) (m_loadedTextures : Nat)
    (tag : String) (textureID : Int) (index : Nat) (bFound : Bool) : Except Fault Int :=
  if h : index < m_loadedTextures ∧ bFound = false then
    match m_textureIDs[index]? with
    | none => .error .outOfBounds
    | some e =>
      if e.tag = tag then
        FindTextureID.loop m_textureIDs m_loadedTextures tag (e.ID : Int) index true
      else
        FindTextureID.loop m_textureIDs m_loadedTextures tag textureID (index + 1) false
  else
    .ok textureID
termination_by (if bFound then 0 else 1 + (m_loadedTextures - index))
decreasing_by
  all_goals simp_wf
  all_goals simp only [h.2, Bool.false_eq_true, if_false]
  all_goals omega

/-- The method `SceneManager::FindTextureID`. -/
def FindTextureID {R : Type} (s : State R) (tag : String) : Except Fault Int :=
  FindTextureID.loop s.m_textureIDs s.m_loadedTextures tag (-1) 0 false

/-- The method `SceneManager::CreateGLTexture`. `stbi_load` is the image decoder
(`none` is the null pointer it returns for a file it cannot decode). The texture
parameter and upload calls act on the contents of the texture object only and
leave the set of texture names untouched. -/
def CreateGLTexture {R : Type} (stbi_load : String → Option Image) (s : State R)
    (filename : String) (tag : String) : Except Fault (Bool × State R) :=
  match stbi_load filename with
  | some image =>
    let (textureID, gl1) := glGenTextures s.gl
    let s1 : State R := { s with gl := gl1 }
    if image.colorChannels = 3 ∨ image.colorChannels = 4 then
      if s1.m_loadedTextures < s1.m_textureIDs.length then
        .ok (true,
          { s1 with
            m_textureIDs := s1.m_textureIDs.set s1.m_loadedTextures
              { ID := textureID, tag := tag }
            m_loadedTextures := s1.m_loadedTextures + 1 })
      else
        .error .outOfBounds
    else
      .ok (false, s1)
  | none => .ok (false, s)

/-- The method `SceneManager::DestroyGLTextures`: one `glGenTextures` call per
registered entry, each storing the generated name in that entry's `ID`. -/
def DestroyGLTextures.loop {R : Type} (s : State R) (i : Nat) : Except Fault (State R) :=
  if h : i < s.m_loadedTextures then
    match s.m_textureIDs[i]? with
    | none => .error .outOfBounds
    | some e =>
      let (id, gl1) := glGenTextures s.gl
      DestroyGLTextures.loop
        { s with gl := gl1, m_textureIDs := s.m_textureIDs.set i { e with ID := id } } (i + 1)
  else
    .ok s
termination_by s.m_loadedTextures - i
decreasing_by
  simp_wf
  omega

/-- The method `SceneManager::DestroyGLTextures`. -/
def DestroyGLTextures {R : Type} (s : State R) : Except Fault (State R) :=
  DestroyGLTextures.loop s 0

/-! ## Material registry -/

/-- The `while` loop of `FindMaterial`, started from the given contents of the
output parameter `material` and values of the locals `index` and `bFound`;
yields the final `material` and `bFound`. -/
def FindMaterial.loop {R : Type} (m_objectMaterials : List (OBJECT_MATERIAL R)) (tag : String)
    (material : OBJECT_MATERIAL R) (index : Nat) (bFound : Bool) : OBJECT_MATERIAL R × Bool :=
  if h : index < m_objectMaterials.length ∧ bFound = false then
    if m_objectMaterials[index].tag = tag then
      FindMaterial.loop m_objectMaterials tag
        { material with
          ambientColor := m_objectMaterials[index].ambientColor
          ambientStrength := m_objectMaterials[index].ambientStrength
          diffuseColor := m_objectMaterials[index].diffuseColor
          specularColor := m_objectMaterials[index].specularColor
          shininess := m_objectMaterials[index].shininess }
        index true
    else
      FindMaterial.loop m_objectMaterials tag material (index + 1) false
  else
    (material, bFound)
termination_by (if bFound then 0 else 1 + (m_objectMaterials.length - index))
decreasing_by
  all_goals simp_wf
  all_goals simp only [h.2, Bool.false_eq_true, if_false]
  all_goals omega

/-- The method `SceneManager::FindMaterial`: the returned pair is the `bool`
result and the contents of the output parameter `material` after the call.
The statement after the loop is `return(true)`; the local `bFound` is not used
for the result. -/
def FindMaterial {R : Type} (s : State R) (tag : String) (material : OBJECT_MATERIAL R) :
    Bool × OBJECT_MATERIAL R :=
  if s.m_objectMaterials.length = 0 then
    (false, material)
  else
    let r := FindMaterial.loop s.m_objectMaterials tag material 0 false
    (true, r.1)

/-! ## GLM operations used by the source

The vector and matrix operations of the GLM library (external to the
repository), written out as GLM defines them, over exact arithmetic. The
transcendental functions are parameters. -/

/-- The scalar functions of the math library that GLM calls: `cos`, `sin`,
`inversesqrt` and the degree-to-radian conversion `glm::radians`. -/
structure MathFns (R : Type) where
  cos : R → R
  sin : R → R
  inversesqrt : R → R
  radians : R → R

section Glm

variable {R : Type} [CommRing R]

instance : Add (Vec3 R) := ⟨fun a b => ⟨a.x + b.x, a.y + b.y, a.z + b.z⟩⟩
instance : HMul (Vec3 R) R (Vec3 R) := ⟨fun v s => ⟨v.x * s, v.y * s, v.z * s⟩⟩
instance : HMul R (Vec3 R) (Vec3 R) := ⟨fun s v => ⟨s * v.x, s * v.y, s * v.z⟩⟩
instance : Add (Vec4 R) := ⟨fun a b => ⟨a.x + b.x, a.y + b.y, a.z + b.z, a.w + b.w⟩⟩
instance : HMul (Vec4 R) R (Vec4 R) := ⟨fun v s => ⟨v.x * s, v.y * s, v.z * s, v.w * s⟩⟩

/-- The product `mat4 * vec4` of GLM. -/
instance : HMul (Mat4 R) (Vec4 R) (Vec4 R) :=
  ⟨fun m v => (m.c0 * v.x + m.c1 * v.y) + (m.c2 * v.z + m.c3 * v.w)⟩

/-- The product `mat4 * mat4` of GLM, column by column. -/
instance : Mul (Mat4 R) :=
  ⟨fun m1 m2 =>
    { c0 := m1.c0 * m2.c0.x + m1.c1 * m2.c0.y + m1.c2 * m2.c0.z + m1.c3 * m2.c0.w
      c1 := m1.c0 * m2.c1.x + m1.c1 * m2.c1.y + m1.c2 * m2.c1.z + m1.c3 * m2.c1.w
      c2 := m1.c0 * m2.c2.x + m1.c1 * m2.c2.y + m1.c2 * m2.c2.z + m1.c3 * m2.c2.w
      c3 := m1.c0 * m2.c3.x + m1.c1 * m2.c3.y + m1.c2 * m2.c3.z + m1.c3 * m2.c3.w }⟩

namespace glm

/-- The constructor `glm::mat4(1.0f)`: the identity matrix. -/
def mat4_1 : Mat4 R :=
  { c0 := ⟨1, 0, 0, 0⟩, c1 := ⟨0, 1, 0, 0⟩, c2 := ⟨0, 0, 1, 0⟩, c3 := ⟨0, 0, 0, 1⟩ }

/-- The function `glm::dot` on `vec3`. -/
def dot (a b : Vec3 R) : R := a.x * b.x + a.y * b.y + a.z * b.z

/-- The function `glm::normalize` on `vec3`: `v * inversesqrt(dot(v, v))`. -/
def normalize (L : MathFns R) (v : Vec3 R) : Vec3 R := v * L.inversesqrt (dot v v)

/-- The function `glm::translate(m, v)`. -/
def translate (m : Mat4 R) (v : Vec3 R) : Mat4 R :=
  { m with c3 := m.c0 * v.x + m.c1 * v.y + m.c2 * v.z + m.c3 }

/-- The function `glm::rotate(m, angle, v)`, `angle` in radians. -/
def rotate (L : MathFns R) (m : Mat4 R) (angle : R) (v : Vec3 R) : Mat4 R :=
  let a := angle
  let c := L.cos a
  let s := L.sin a
  let axis := normalize L v
  let temp : Vec3 R := (1 - c) * axis
  let r00 := c + temp.x * axis.x
  let r01 := temp.x * axis.y + s * axis.z
  let r02 := temp.x * axis.z - s * axis.y
  let r10 := temp.y * axis.x - s * axis.z
  let r11 := c + temp.y * axis.y
  let r12 := temp.y * axis.z + s * axis.x
  let r20 := temp.z * axis.x + s * axis.y
  let r21 := temp.z * axis.y - s * axis.x
  let r22 := c + temp.z * axis.z
  { c0 := m.c0 * r00 + m.c1 * r01 + m.c2 * r02
    c1 := m.c0 * r10 + m.c1 * r11 + m.c2 * r12
    c2 := m.c0 * r20 + m.c1 * r21 + m.c2 * r22
    c3 := m.c3 }

/-- The function `glm::scale(m, v)`. -/
def scale (m : Mat4 R) (v : Vec3 R) : Mat4 R :=
  { c0 := m.c0 * v.x, c1 := m.c1 * v.y, c2 := m.c2 * v.z, c3 := m.c3 }

/-- The function `glm::translate(v)` of `glm/gtx/transform.hpp`. -/
def translate1 (v : Vec3 R) : Mat4 R := translate mat4_1 v

/-- The function `glm::rotate(angle, v)` of `glm/gtx/transform.hpp`. -/
def rotate1 (L : MathFns R) (angle : R) (v : Vec3 R) : Mat4 R := rotate L mat4_1 angle v

/-- The function `glm::scale(v)` of `glm/gtx/transform.hpp`. -/
def scale1 (v : Vec3 R) : Mat4 R := scale mat4_1 v

end glm

/-! ## Transform composer and shader parameter bridge -/

/-- The local `modelView` of `SetTransformations` at the point where it is
handed to the shader. -/
def SetTransformations.modelView (L : MathFns R) (scaleXYZ : Vec3 R)
    (XrotationDegrees YrotationDegrees ZrotationDegrees : R) (positionXYZ : Vec3 R) : Mat4 R :=
  let scale := glm.scale1 scaleXYZ
  let rotationX := glm.rotate1 L (L.radians XrotationDegrees) ⟨1, 0, 0⟩
  let rotationY := glm.rotate1 L (L.radians YrotationDegrees) ⟨0, 1, 0⟩
  let rotationZ := glm.rotate1 L (L.radians ZrotationDegrees) ⟨0, 0, 1⟩
  let translation := glm.translate1 positionXYZ
  translation * rotationX * rotationY * rotationZ * scale

/-- The method `SceneManager::SetTransformations`. -/
def SetTransformations (L : MathFns R) (s : State R) (scaleXYZ : Vec3 R)
    (XrotationDegrees YrotationDegrees ZrotationDegrees : R) (positionXYZ : Vec3 R) : State R :=
  let modelView := SetTransformations.modelView L scaleXYZ
    XrotationDegrees YrotationDegrees ZrotationDegrees positionXYZ
  match s.m_pShaderManager with
  | some sh => { s with m_pShaderManager := some (sh.setValue g_ModelName (.mat4 modelView)) }
  | none => s

/-- The method `SceneManager::SetShaderColor`. -/
def SetShaderColor (s : State R) (redColorValue greenColorValue blueColorValue alphaValue : R) :
    State R :=
  let currentColor : Vec4 R := ⟨redColorValue, greenColorValue, blueColorValue, alphaValue⟩
  match s.m_pShaderManager with
  | some sh =>
    let sh1 := sh.setValue g_UseTextureName (.int 0)
    let sh2 := sh1.setValue g_ColorValueName (.vec4 currentColor)
    { s with m_pShaderManager := some sh2 }
  | none => s

/-- The method `SceneManager::SetShaderTexture`. -/
def SetShaderTexture (s : State R) (textureTag : String) : Except Fault (State R) :=
  match s.m_pShaderManager with
  | some sh =>
    let sh1 := sh.setValue g_UseTextureName (.int 1)
    match FindTextureSlot s textureTag with
    | .error f => .error f
    | .ok textureID =>
      let sh2 := sh1.setValue g_TextureValueName (.sampler2D textureID)
      .ok { s with m_pShaderManager := some sh2 }
  | none => .ok s

/-- The method `SceneManager::SetTextureUVScale`. -/
def SetTextureUVScale (s : State R) (u v : R) : State R :=
  match s.m_pShaderManager with
  | some sh => { s with m_pShaderManager := some (sh.setValue "UVscale" (.vec2 ⟨u, v⟩)) }
  | none => s

/-- The method `SceneManager::SetShaderMaterial`. The local `material` is
declared without an initialiser; `material0` is whatever it holds before
`FindMaterial` is called. The five setter calls go through `m_pShaderManager`
without a null test. -/
def SetShaderMaterial (s : State R) (materialTag : String) (material0 : OBJECT_MATERIAL R) :
    Except Fault (State R) :=
  if s.m_objectMaterials.length > 0 then
    let (bReturn, material) := FindMaterial s materialTag material0
    if bReturn = true then
      match s.m_pShaderManager with
      | none => .error .nullDereference
      | some sh =>
        let sh1 := sh.setValue "material.ambientColor" (.vec3 material.ambientColor)
        let sh2 := sh1.setValue "material.ambientStrength" (.float material.ambientStrength)
        let sh3 := sh2.setValue "material.diffuseColor" (.vec3 material.diffuseColor)
        let sh4 := sh3.setValue "material.specularColor" (.vec3 material.specularColor)
        let sh5 := sh4.setValue "material.shininess" (.float material.shininess)
        .ok { s with m_pShaderManager := some sh5 }
    else
      .ok s
  else
    .ok s

end Glm

/-! ## Scene assembler -/

section Scene

variable {R : Type} [Field R]

/-- The method `SceneManager::DefineObjectMaterials`: six `push_back` calls. -/
def DefineObjectMaterials (s : State R) : State R :=
  let goldMaterial : OBJECT_MATERIAL R :=
    { ambientColor := ⟨0.2, 0.2, 0.1⟩, ambientStrength := 0.4, diffuseColor := ⟨0.3, 0.3, 0.2⟩
      specularColor := ⟨0.6, 0.5, 0.4⟩, shininess := 22.0, tag := "gold" }
  let m1 := s.m_objectMaterials ++ [goldMaterial]
  let cementMaterial : OBJECT_MATERIAL R :=
    { ambientColor := ⟨0.2, 0.2, 0.2⟩, ambientStrength := 0.2, diffuseColor := ⟨0.5, 0.5, 0.5⟩
      specularColor := ⟨0.4, 0.4, 0.4⟩, shininess := 0.5, tag := "cement" }
  let m2 := m1 ++ [cementMaterial]
  let woodMaterial : OBJECT_MATERIAL R :=
    { ambientColor := ⟨0.4, 0.3, 0.1⟩, ambientStrength := 0.2, diffuseColor := ⟨0.3, 0.2, 0.1⟩
      specularColor := ⟨0.1, 0.1, 0.1⟩, shininess := 0.3, tag := "wood" }
  let m3 := m2 ++ [woodMaterial]
  let tileMaterial : OBJECT_MATERIAL R :=
    { ambientColor := ⟨0.2, 0.3, 0.4⟩, ambientStrength := 0.3, diffuseColor := ⟨0.3, 0.2, 0.1⟩
      specularColor := ⟨0.4, 0.5, 0.6⟩, shininess := 25.0, tag := "tile" }
  let m4 := m3 ++ [tileMaterial]
  let glassMaterial : OBJECT_MATERIAL R :=
    { ambientColor := ⟨0.4, 0.4, 0.4⟩, ambientStrength := 0.3, diffuseColor := ⟨0.3, 0.3, 0.3⟩
      specularColor := ⟨0.6, 0.6, 0.6⟩, shininess := 85.0, tag := "glass" }
  let m5 := m4 ++ [glassMaterial]
  let clayMaterial : OBJECT_MATERIAL R :=
    { ambientColor := ⟨0.2, 0.2, 0.3⟩, ambientStrength := 0.3, diffuseColor := ⟨0.4, 0.4, 0.5⟩
      specularColor := ⟨0.2, 0.2, 0.4⟩, shininess := 0.5, tag := "clay" }
  let m6 := m5 ++ [clayMaterial]
  { s with m_objectMaterials := m6 }

/-- A call `m_pShaderManager->setMat4Value(name, m)` made without a null test. -/
def setMat4ValueUnguarded (s : State R) (name : String) (m : Mat4 R) : Except Fault (State R) :=
  match s.m_pShaderManager with
  | none => .error .nullDereference
  | some sh => .ok { s with m_pShaderManager := some (sh.setValue name (.mat4 m)) }

/-- The local `cupTransform` of `RenderScene` after its three updates. -/
def RenderScene.cupTransform (L : MathFns R) : Mat4 R :=
  let cupTransform : Mat4 R := glm.mat4_1
  let cupTransform := glm.translate cupTransform ⟨6.0, 1.12, 7.0⟩
  let cupTransform := glm.rotate L cupTransform (L.radians 160.0) ⟨1.0, 0.0, 0.0⟩
  let cupTransform := glm.scale cupTransform ⟨0.4, 1.1, 0.4⟩
  cupTransform

/-- The local `handleTransform` of `RenderScene` after its three updates. -/
def RenderScene.handleTransform (L : MathFns R) : Mat4 R :=
  let handleTransform : Mat4 R := RenderScene.cupTransform L
  let handleTransform := glm.translate handleTransform ⟨1.0, 0.5, 0.0⟩
  let handleTransform := glm.rotate L handleTransform (L.radians 90.0) ⟨0.0, 10.0, 90.0⟩
  let handleTransform := glm.scale handleTransform ⟨0.2, 0.2, 0.1⟩
  handleTransform

/-- The part of `RenderScene` that draws the floor plane. The mesh draw calls
of `m_basicMeshes` do not touch the modelled state. `material0` is the content
of the uninitialised local of the `SetShaderMaterial` call. -/
def RenderScene.drawFloor (L : MathFns R) (s : State R) (material0 : OBJECT_MATERIAL R) :
    Except Fault (State R) := do
  let scaleXYZ : Vec3 R := ⟨20.0, 1.0, 10.0⟩
  let XrotationDegrees : R := 0.0
  let YrotationDegrees : R := 0.0
  let ZrotationDegrees : R := 0.0
  let positionXYZ : Vec3 R := ⟨0.0, 0.0, 0.0⟩
  let s := SetTransformations L s scaleXYZ XrotationDegrees YrotationDegrees ZrotationDegrees
    positionXYZ
  let s ← SetShaderTexture s "wood"
  let s ← SetShaderMaterial s "wood" material0
  let s := SetTextureUVScale s 5.0 5.0
  pure s

/-- The part of `RenderScene` that draws the cup (the parent object). -/
def RenderScene.drawCup (L : MathFns R) (s : State R) (material0 : OBJECT_MATERIAL R) :
    Except Fault (State R) := do
  let s ← setMat4ValueUnguarded s "model" (RenderScene.cupTransform L)
  let s ← SetShaderTexture s "stainedglass"
  let s ← SetShaderMaterial s "glass" material0
  pure s

/-- The part of `RenderScene` that draws the handle of the cup (the child object). -/
def RenderScene.drawHandle (L : MathFns R) (s : State R) : Except Fault (State R) := do
  let s ← setMat4ValueUnguarded s "model" (RenderScene.handleTransform L)
  let s ← SetShaderTexture s "stainedglass"
  pure s

/-- The method `SceneManager::AddComputerMonitor`. -/
def AddComputerMonitor (L : MathFns R) (s : State R) (position : Vec3 R)
    (material0 : OBJECT_MATERIAL R) : Except Fault (State R) := do
  let s := SetTransformations L s ⟨8.0, 3.0, 0.1⟩ 0.0 0.0 0.0 position
  let s ← SetShaderTexture s "cloud"
  let s ← SetShaderMaterial s "glass" material0
  pure s

/-- The method `SceneManager::AddPencil`. -/
def AddPencil (L : MathFns R) (s : State R) (position : Vec3 R)
    (material0 : Nat → OBJECT_MATERIAL R) : Except Fault (State R) := do
  let s := SetTransformations L s ⟨0.05, 1.5, 0.05⟩ 0.0 0.0 90.0 position
  let s ← SetShaderTexture s "wood"
  let s ← SetShaderMaterial s "wood" (material0 0)
  let s := SetTransformations L s ⟨0.05, 0.05, 0.05⟩ 0.0 0.0 90.0 (position + ⟨0.05, 0.0, 0.0⟩)
  let s ← SetShaderTexture s "metal"
  let s ← SetShaderMaterial s "gold" (material0 1)
  let s := SetTransformations L s ⟨0.05, 0.2, 0.05⟩ 0.0 0.0 90.0 (position + ⟨0.25, 0.0, 0.0⟩)
  let s ← SetShaderTexture s "fire"
  let s ← SetShaderMaterial s "clay" (material0 2)
  pure s

/-- The method `SceneManager::AddStackOfBooks`. -/
def AddStackOfBooks (L : MathFns R) (s : State R) (position : Vec3 R)
    (material0 : Nat → OBJECT_MATERIAL R) : Except Fault (State R) := do
  let s := SetTransformations L s ⟨1.5, 0.3, 1.0⟩ 0.0 0.0 0.0 (position + ⟨0.1, -1.1, 0.0⟩)
  let s ← SetShaderTexture s "fire"
  let s ← SetShaderMaterial s "clay" (material0 0)
  let s := SetTransformations L s ⟨1.5, 0.3, 1.0⟩ 0.0 0.0 0.0 (position + ⟨0.0, -0.8, 0.0⟩)
  let s ← SetShaderTexture s "metal"
  let s ← SetShaderMaterial s "clay" (material0 1)
  let s := SetTransformations L s ⟨1.5, 0.3, 1.0⟩ 0.0 0.0 0.0 (position + ⟨0.0, -0.5, 0.1⟩)
  let s ← SetShaderTexture s "seashells"
  let s ← SetShaderMaterial s "clay" (material0 2)
  pure s

/-- The method `SceneManager::RenderScene`. `material0 k` is the content of the
uninitialised local of the k-th `SetShaderMaterial` call. -/
def RenderScene (L : MathFns R) (s : State R) (material0 : Nat → OBJECT_MATERIAL R) :
    Except Fault (State R) := do
  let s ← RenderScene.drawFloor L s (material0 0)
  let s ← RenderScene.drawCup L s (material0 1)
  let s ← RenderScene.drawHandle L s
  let s ← AddComputerMonitor L s ⟨0.5, 1.5, 2.0⟩ (material0 2)
  let s ← AddPencil L s ⟨-5.0, 0.1, 7.0⟩ (fun k => material0 (3 + k))
  let s ← AddStackOfBooks L s ⟨-9.0, 1.3, 7.2⟩ (fun k => material0 (6 + k))
  pure s

end Scene

/-! ## Specification-side notions -/

section SpecMatrices

variable {R : Type} [CommRing R]

/-- A `mat4` read as a 4 x 4 matrix: column `j` of the `mat4` is column `j` of the matrix. -/
def Mat4.toMatrix (m : Mat4 R) : Matrix (Fin 4) (Fin 4) R :=
  !![m.c0.x, m.c1.x, m.c2.x, m.c3.x;
     m.c0.y, m.c1.y, m.c2.y, m.c3.y;
     m.c0.z, m.c1.z, m.c2.z, m.c3.z;
     m.c0.w, m.c1.w, m.c2.w, m.c3.w]

/-- A `vec4` read as a column vector. -/
def Vec4.toVector (v : Vec4 R) : Fin 4 → R := ![v.x, v.y, v.z, v.w]

/-- The point `(x, y, z)` in homogeneous coordinates. -/
def Vec3.toPoint (v : Vec3 R) : Fin 4 → R := ![v.x, v.y, v.z, 1]

namespace Spec

/-- The spec's `Translate(position)`: the homogeneous translation matrix. -/
def Translate (p : Vec3 R) : Matrix (Fin 4) (Fin 4) R :=
  !![1, 0, 0, p.x;
     0, 1, 0, p.y;
     0, 0, 1, p.z;
     0, 0, 0, 1]

/-- The spec's `RotateX`: right-handed rotation about the X axis, given the
cosine `c` and sine `s` of the angle. -/
def RotateX (c s : R) : Matrix (Fin 4) (Fin 4) R :=
  !![1, 0, 0, 0;
     0, c, -s, 0;
     0, s, c, 0;
     0, 0, 0, 1]

/-- The spec's `RotateY`: right-handed rotation about the Y axis. -/
def RotateY (c s : R) : Matrix (Fin 4) (Fin 4) R :=
  !![c, 0, s, 0;
     0, 1, 0, 0;
     -s, 0, c, 0;
     0, 0, 0, 1]

/-- The spec's `RotateZ`: right-handed rotation about the Z axis. -/
def RotateZ (c s : R) : Matrix (Fin 4) (Fin 4) R :=
  !![c, -s, 0, 0;
     s, c, 0, 0;
     0, 0, 1, 0;
     0, 0, 0, 1]

/-- The spec's `Scale(scale)`: the diagonal scaling matrix. -/
def Scale (v : Vec3 R) : Matrix (Fin 4) (Fin 4) R :=
  !![v.x, 0, 0, 0;
     0, v.y, 0, 0;
     0, 0, v.z, 0;
     0, 0, 0, 1]

/-- The spec's `Compose`: `Translate(position) · RotateX(rotX) · RotateY(rotY) ·
RotateZ(rotZ) · Scale(scale)`, angles in degrees converted to radians first. -/
def Compose (L : MathFns R) (scale : Vec3 R) (rotX rotY rotZ : R) (position : Vec3 R) :
    Matrix (Fin 4) (Fin 4) R :=
  Translate position
    * RotateX (L.cos (L.radians rotX)) (L.sin (L.radians rotX))
    * RotateY (L.cos (L.radians rotY)) (L.sin (L.radians rotY))
    * RotateZ (L.cos (L.radians rotZ)) (L.sin (L.radians rotZ))
    * Scale scale

end Spec

end SpecMatrices


/-- The tag of the `i`-th slot of the texture table, if the slot exists. -/
def tagAt {R : Type} (s : State R) (i : Nat) : Option String :=
  (s.m_textureIDs[i]?).map TEXTURE_INFO.tag

/-- The registered entries fit into the storage of the texture table. -/
def State.WellFormed {R : Type} (s : State R) : Prop :=
  s.m_loadedTextures ≤ s.m_textureIDs.length

instance {R : Type} (s : State R) : Decidable s.WellFormed :=
  inferInstanceAs (Decidable (_ ≤ _))

/-- The index `i` is the first registered entry carrying `tag`. -/
def IsFirstMatch {R : Type} (s : State R) (tag : String) (i : Nat) : Prop :=
  i < s.m_loadedTextures ∧ tagAt s i = some tag ∧ ∀ j, j < i → tagAt s j ≠ some tag

/-- No registered entry carries `tag`. -/
def NoMatch {R : Type} (s : State R) (tag : String) : Prop :=
  ∀ i, i < s.m_loadedTextures → tagAt s i ≠ some tag

/-- The texture named `id` is live in the OpenGL context: the name has been
generated and not deleted. -/
def GLContext.IsLive (gl : GLContext) (id : Nat) : Prop := id ∈ gl.textures

instance (gl : GLContext) (id : Nat) : Decidable (gl.IsLive id) :=
  inferInstanceAs (Decidable (id ∈ gl.textures))

/-! ## Concrete inputs -/

/-- Rational stand-ins for the math library: truncated series for `cos` and
`sin`, one Newton step for `inversesqrt`, and 355/113 for pi in `radians`. -/
def exampleMath : MathFns ℚ :=
  { cos := fun x => 1 - x * x / 2
    sin := fun x => x
    inversesqrt := fun x => (3 - x) / 2
    radians := fun d => d * 355 / (113 * 180) }

/-- A scene manager with a bound shader that has received no write, a texture
table of 16 slots, and nothing registered. -/
def freshState : State ℚ :=
  { m_pShaderManager := some { writes := [] }
    m_textureIDs := List.replicate 16 { ID := 0, tag := "" }
    m_loadedTextures := 0
    m_objectMaterials := []
    gl := { textures := [] } }

/-- The state `freshState` after `DefineObjectMaterials`. -/
def sceneState : State ℚ := DefineObjectMaterials freshState

/-- The state `sceneState` with two registered textures, "wood" in slot 0 and "metal" in slot 1. -/
def twoTextureState : State ℚ :=
  { sceneState with
    m_textureIDs :=
      [{ ID := 1, tag := "wood" }, { ID := 2, tag := "metal" }] ++
        List.replicate 14 { ID := 0, tag := "" }
    m_loadedTextures := 2
    gl := { textures := [2, 1] } }

/-- A scene manager whose 16-slot texture table is full: "wood" registered 16 times. -/
def fullState : State ℚ :=
  { sceneState with
    m_textureIDs := (List.range 16).map (fun i => { ID := i + 1, tag := "wood" })
    m_loadedTextures := 16
    gl := { textures := (List.range 16).map (fun i => i + 1) } }

/-- An image decoder: an RGB file, an RGBA file, a one-channel file, and nothing else. -/
def exampleDecoder : String → Option Image := fun filename =>
  if filename = "Textures/wood.jpg" then some { width := 512, height := 512, colorChannels := 3 }
  else if filename = "Textures/leaf.png" then some { width := 64, height := 64, colorChannels := 4 }
  else if filename = "Textures/gray.png" then some { width := 64, height := 64, colorChannels := 1 }
  else none

/-- The state `sceneState` once the shader has received the "gold" material:
the five material uniforms hold the values of `goldMaterial`. -/
def goldShaderState : State ℚ :=
  { sceneState with
    m_pShaderManager := some
      { writes :=
          [("material.shininess", .float 22.0),
           ("material.specularColor", .vec3 ⟨0.6, 0.5, 0.4⟩),
           ("material.diffuseColor", .vec3 ⟨0.3, 0.3, 0.2⟩),
           ("material.ambientStrength", .float 0.4),
           ("material.ambientColor", .vec3 ⟨0.2, 0.2, 0.1⟩)] } }

/-- The state `twoTextureState` after one more texture got registered as "wood". -/
def threeTextureState : State ℚ :=
  { twoTextureState with
    m_textureIDs :=
      [{ ID := 1, tag := "wood" }, { ID := 2, tag := "metal" }, { ID := 3, tag := "wood" }] ++
        List.replicate 13 { ID := 0, tag := "" }
    m_loadedTextures := 3
    gl := { textures := [3, 2, 1] } }

/-- Some contents for an uninitialised `OBJECT_MATERIAL` local. -/
def staleMaterial : OBJECT_MATERIAL ℚ :=
  { ambientColor := ⟨9, 9, 9⟩, ambientStrength := 9, diffuseColor := ⟨9, 9, 9⟩
    specularColor := ⟨9, 9, 9⟩, shininess := 9, tag := "" }

/-- The registered materials of `sceneState` followed by a second material
tagged "gold" with other values. -/
def duplicateGoldState : State ℚ :=
  { sceneState with
    m_objectMaterials := sceneState.m_objectMaterials ++
      [{ ambientColor := ⟨1, 1, 1⟩, ambientStrength := 1, diffuseColor := ⟨1, 1, 1⟩
         specularColor := ⟨1, 1, 1⟩, shininess := 1, tag := "gold" }] }

/-- The state `twoTextureState` after `DestroyGLTextures`: two more texture
names are in use, and the two registered entries hold the new names. -/
def twoTextureStateDestroyed : State ℚ :=
  { twoTextureState with
    m_textureIDs :=
      [{ ID := 3, tag := "wood" }, { ID := 4, tag := "metal" }] ++
        List.replicate 14 { ID := 0, tag := "" }
    gl := { textures := [4, 3, 2, 1] } }

/-- The state `twoTextureState` after a failed load of a one-channel image:
one more texture name is in use, the registry is as before. -/
def twoTextureStateFailedLoad : State ℚ :=
  { twoTextureState with gl := { textures := [3, 2, 1] } }

/-! ## Texture registry: lemmas -/

theorem FindTextureSlot.loop_found (ids : List TEXTURE_INFO) (n : Nat) (tag : String)
    (slot : Int) (index : Nat) : FindTextureSlot.loop ids n tag slot index true = .ok slot := by
  rw [FindTextureSlot.loop]
  simp

theorem FindTextureSlot.loop_spec {R : Type} (s : State R) (tag : String) (hwf : s.WellFormed) :
    ∀ k index, k = s.m_loadedTextures - index → index ≤ s.m_loadedTextures →
      (∀ j, j < index → tagAt s j ≠ some tag) →
      ∃ r, FindTextureSlot.loop s.m_textureIDs s.m_loadedTextures tag (-1) index false = .ok r ∧
        ((∃ i, IsFirstMatch s tag i ∧ r = (i : Int)) ∨ (NoMatch s tag ∧ r = -1)) := by
  intro k
  induction k with
  | zero =>
    intro index hk hle hpre
    have hidx : index = s.m_loadedTextures := by omega
    refine ⟨-1, ?_, Or.inr ⟨?_, rfl⟩⟩
    · rw [FindTextureSlot.loop]
      simp [hidx]
    · intro i hi
      exact hpre i (by omega)
  | succ k ih =>
    intro index hk hle hpre
    have hlt : index < s.m_loadedTextures := by omega
    have hlen : index < s.m_textureIDs.length := lt_of_lt_of_le hlt hwf
    rw [FindTextureSlot.loop]
    simp only [hlt, true_and, dite_true, List.getElem?_eq_getElem hlen]
    by_cases htag : (s.m_textureIDs[index]).tag = tag
    · refine ⟨(index : Int), ?_, Or.inl ⟨index, ⟨hlt, ?_, hpre⟩, rfl⟩⟩
      · simp [htag, FindTextureSlot.loop_found]
      · simp [tagAt, List.getElem?_eq_getElem hlen, htag]
    · simp only [htag, if_false]
      apply ih (index + 1) (by omega) (by omega)
      intro j hj
      rcases Nat.lt_succ_iff_lt_or_eq.mp hj with h | h
      · exact hpre j h
      · subst h
        simp [tagAt, List.getElem?_eq_getElem hlen, htag]

theorem FindTextureSlot_spec {R : Type} (s : State R) (tag : String) (hwf : s.WellFormed) :
    ∃ r, FindTextureSlot s tag = .ok r ∧
      ((∃ i, IsFirstMatch s tag i ∧ r = (i : Int)) ∨ (NoMatch s tag ∧ r = -1)) :=
  FindTextureSlot.loop_spec s tag hwf _ 0 rfl (Nat.zero_le _) (fun j hj => absurd hj (Nat.not_lt_zero j))

theorem IsFirstMatch.unique {R : Type} {s : State R} {tag : String} {i j : Nat}
    (hi : IsFirstMatch s tag i) (hj : IsFirstMatch s tag j) : i = j := by
  rcases Nat.lt_trichotomy i j with h | h | h
  · exact absurd hi.2.1 (hj.2.2 i h)
  · exact h
  · exact absurd hj.2.1 (hi.2.2 j h)

theorem FindTextureSlot_of_firstMatch {R : Type} {s : State R} {tag : String} {i : Nat}
    (hwf : s.WellFormed) (hi : IsFirstMatch s tag i) : FindTextureSlot s tag = .ok (i : Int) := by
  obtain ⟨r, hr, hcase⟩ := FindTextureSlot_spec s tag hwf
  rcases hcase with ⟨j, hj, rfl⟩ | ⟨hno, _⟩
  · rw [hr, hi.unique hj]
  · exact absurd hi.2.1 (hno i hi.1)

/-- Claim C3. For a texture table whose `m_loadedTextures` registered entries lie
within its storage, `FindTextureSlot(tag)` returns a value: either the smallest
index below `m_loadedTextures` whose entry carries `tag`, or the sentinel `-1`;
and it returns `-1` exactly when no registered entry carries `tag`. -/
theorem FindTextureSlot_first_match_or_sentinel {R : Type} (s : State R) (tag : String)
    (hwf : s.m_loadedTextures ≤ s.m_textureIDs.length) :
    ∃ r, FindTextureSlot s tag = .ok r ∧
      ((∃ i, i < s.m_loadedTextures ∧ tagAt s i = some tag ∧
          (∀ j, j < i → tagAt s j ≠ some tag) ∧ r = (i : Int)) ∨
        ((∀ i, i < s.m_loadedTextures → tagAt s i ≠ some tag) ∧ r = -1)) ∧
      (r = -1 ↔ ∀ i, i < s.m_loadedTextures → tagAt s i ≠ some tag) := by
  obtain ⟨r, hr, hcase⟩ := FindTextureSlot_spec s tag hwf
  refine ⟨r, hr, ?_, ?_⟩
  · rcases hcase with ⟨i, hi, hri⟩ | ⟨hno, hr1⟩
    · exact Or.inl ⟨i, hi.1, hi.2.1, hi.2.2, hri⟩
    · exact Or.inr ⟨hno, hr1⟩
  · rcases hcase with ⟨i, hi, hri⟩ | ⟨hno, hr1⟩
    · constructor
      · intro h
        omega
      · intro hno
        exact absurd hi.2.1 (hno i hi.1)
    · exact ⟨fun _ => hno, fun _ => hr1⟩

/-- Witness for C3: the lookup of "metal" and of "nonexistent" in a table with
"wood" in slot 0 and "metal" in slot 1. -/
theorem FindTextureSlot_first_match_or_sentinel_witness :
    twoTextureState.m_loadedTextures ≤ twoTextureState.m_textureIDs.length ∧
    ∃ r, FindTextureSlot twoTextureState "nonexistent" = .ok r ∧
      ((∃ i, i < twoTextureState.m_loadedTextures ∧ tagAt twoTextureState i = some "nonexistent" ∧
          (∀ j, j < i → tagAt twoTextureState j ≠ some "nonexistent") ∧ r = (i : Int)) ∨
        ((∀ i, i < twoTextureState.m_loadedTextures →
            tagAt twoTextureState i ≠ some "nonexistent") ∧ r = -1)) ∧
      (r = -1 ↔ ∀ i, i < twoTextureState.m_loadedTextures →
        tagAt twoTextureState i ≠ some "nonexistent") :=
  ⟨by decide, FindTextureSlot_first_match_or_sentinel twoTextureState "nonexistent" (by decide)⟩

/-! ## Loading textures -/

theorem tagAt_lt_of_eq_some {R : Type} {s : State R} {i : Nat} {tag : String}
    (h : tagAt s i = some tag) : i < s.m_textureIDs.length := by
  by_contra hge
  have : s.m_textureIDs[i]? = none := List.getElem?_eq_none (Nat.le_of_not_lt hge)
  simp [tagAt, this] at h

/-- What a call of `CreateGLTexture` that returns `true` has done to the table. -/
theorem CreateGLTexture_ok_true {R : Type} {stbi_load : String → Option Image} {s s' : State R}
    {filename tag : String} (h : CreateGLTexture stbi_load s filename tag = .ok (true, s')) :
    s.m_loadedTextures < s.m_textureIDs.length ∧
      s'.m_loadedTextures = s.m_loadedTextures + 1 ∧
      ∃ id, s'.m_textureIDs = s.m_textureIDs.set s.m_loadedTextures { ID := id, tag := tag } := by
  unfold CreateGLTexture at h
  cases hload : stbi_load filename with
  | none => simp [hload] at h
  | some image =>
    simp only [hload] at h
    by_cases hch : image.colorChannels = 3 ∨ image.colorChannels = 4
    · by_cases hcap : s.m_loadedTextures < s.m_textureIDs.length
      · simp only [hch, hcap, if_true] at h
        injection h with h
        injection h with _ h
        subst h
        exact ⟨hcap, rfl, _, rfl⟩
      · simp [hch, hcap] at h
    · simp [hch] at h

theorem tagAt_set_of_ne {R : Type} (s s' : State R) (e : TEXTURE_INFO) (n j : Nat)
    (hids : s'.m_textureIDs = s.m_textureIDs.set n e) (hne : n ≠ j) : tagAt s' j = tagAt s j := by
  simp [tagAt, hids, List.getElem?_set_ne hne]

/-- Claim C4 as stated fails (counterexample). With the 16-slot table full, loading a decodable
RGB image does not return `true`: the store `m_textureIDs[m_loadedTextures]`
lies outside the table. -/
theorem CreateGLTexture_full_table_not_true :
    exampleDecoder "Textures/wood.jpg" = some { width := 512, height := 512, colorChannels := 3 } ∧
    fullState.m_loadedTextures = 16 ∧ fullState.m_textureIDs.length = 16 ∧
    CreateGLTexture exampleDecoder fullState "Textures/wood.jpg" "wood2" = .error .outOfBounds ∧
    ¬ ∃ s', CreateGLTexture exampleDecoder fullState "Textures/wood.jpg" "wood2" = .ok (true, s') := by
  have h : CreateGLTexture exampleDecoder fullState "Textures/wood.jpg" "wood2"
      = .error .outOfBounds := by
    simp [CreateGLTexture, exampleDecoder, fullState, glGenTextures]
  refine ⟨by simp [exampleDecoder], rfl, by simp [fullState], h, ?_⟩
  rintro ⟨s', hs'⟩
  rw [h] at hs'
  cases hs'

/-- Claim C4, amended. For every state whose texture table has a free slot
(`m_loadedTextures` below the table's capacity) and every image that decodes
with 3 or 4 colour channels, `CreateGLTexture(file, tag)` returns `true`,
registers one more texture, and `FindTextureSlot(tag)` directly afterwards
returns a slot `r` with `0 ≤ r < N`, `N` the number of registered textures
after the call. -/
theorem CreateGLTexture_then_FindTextureSlot_in_range {R : Type}
    (stbi_load : String → Option Image) (s : State R) (filename tag : String) (image : Image)
    (hload : stbi_load filename = some image)
    (hch : image.colorChannels = 3 ∨ image.colorChannels = 4)
    (hfree : s.m_loadedTextures < s.m_textureIDs.length) :
    ∃ s', CreateGLTexture stbi_load s filename tag = .ok (true, s') ∧
      s'.m_loadedTextures = s.m_loadedTextures + 1 ∧
      ∃ r, FindTextureSlot s' tag = .ok r ∧ 0 ≤ r ∧ r < (s'.m_loadedTextures : Int) := by
  obtain ⟨s', hs'⟩ : ∃ s', CreateGLTexture stbi_load s filename tag = .ok (true, s') := by
    simp [CreateGLTexture, hload, hch, hfree]
  obtain ⟨_, hcount, id, hids⟩ := CreateGLTexture_ok_true hs'
  refine ⟨s', hs', hcount, ?_⟩
  have hwf : s'.WellFormed := by
    simp only [State.WellFormed, hcount, hids, List.length_set]
    omega
  have hnew : tagAt s' s.m_loadedTextures = some tag := by
    simp [tagAt, hids, List.getElem?_set_self hfree]
  obtain ⟨r, hr, hcase⟩ := FindTextureSlot_spec s' tag hwf
  refine ⟨r, hr, ?_⟩
  rcases hcase with ⟨i, hi, rfl⟩ | ⟨hno, _⟩
  · have := hi.1
    omega
  · exact absurd hnew (hno _ (by omega))

/-- Witness for C4 (amended): loading "Textures/wood.jpg" as "wood" into a
table holding two textures. -/
theorem CreateGLTexture_then_FindTextureSlot_in_range_witness :
    ∃ s', CreateGLTexture exampleDecoder twoTextureState "Textures/wood.jpg" "wood" = .ok (true, s') ∧
      s'.m_loadedTextures = twoTextureState.m_loadedTextures + 1 ∧
      ∃ r, FindTextureSlot s' "wood" = .ok r ∧ 0 ≤ r ∧ r < (s'.m_loadedTextures : Int) :=
  CreateGLTexture_then_FindTextureSlot_in_range exampleDecoder twoTextureState
    "Textures/wood.jpg" "wood" { width := 512, height := 512, colorChannels := 3 }
    (by simp [exampleDecoder]) (by decide) (by decide)

/-- Claim C5. For every state and every decoded image whose channel count is
neither 3 nor 4, `CreateGLTexture` returns `false` and the registry is
unchanged: the count of registered textures and the whole texture table (so
every registered (tag, ID) entry) are the same after the call as before it. -/
theorem CreateGLTexture_unsupported_channels {R : Type}
    (stbi_load : String → Option Image) (s : State R) (filename tag : String) (image : Image)
    (hload : stbi_load filename = some image)
    (h3 : image.colorChannels ≠ 3) (h4 : image.colorChannels ≠ 4) :
    ∃ s', CreateGLTexture stbi_load s filename tag = .ok (false, s') ∧
      s'.m_loadedTextures = s.m_loadedTextures ∧ s'.m_textureIDs = s.m_textureIDs := by
  refine ⟨{ s with gl := (glGenTextures s.gl).2 }, ?_, rfl, rfl⟩
  simp [CreateGLTexture, hload, h3, h4]

/-- Witness for C5: a one-channel image offered to a table holding two textures. -/
theorem CreateGLTexture_unsupported_channels_witness :
    ∃ s', CreateGLTexture exampleDecoder twoTextureState "Textures/gray.png" "gray" = .ok (false, s') ∧
      s'.m_loadedTextures = twoTextureState.m_loadedTextures ∧
      s'.m_textureIDs = twoTextureState.m_textureIDs :=
  CreateGLTexture_unsupported_channels exampleDecoder twoTextureState "Textures/gray.png" "gray"
    { width := 64, height := 64, colorChannels := 1 }
    (by simp [exampleDecoder]) (by decide) (by decide)

/-- Claim C6. If some registered entry carries the tag `t`, then after any call
of `CreateGLTexture` that returns `true`, whatever tag it registers (the same
tag `t` included), `FindTextureSlot(t)` returns what it returned before: the
slot of the first entry registered with `t`. -/
theorem FindTextureSlot_stable_under_load {R : Type}
    (stbi_load : String → Option Image) (s s' : State R) (filename newTag t : String)
    (hwf : s.m_loadedTextures ≤ s.m_textureIDs.length)
    (hreg : ∃ i, i < s.m_loadedTextures ∧ tagAt s i = some t)
    (hload : CreateGLTexture stbi_load s filename newTag = .ok (true, s')) :
    ∃ i, IsFirstMatch s t i ∧ FindTextureSlot s t = .ok (i : Int) ∧
      FindTextureSlot s' t = .ok (i : Int) := by
  obtain ⟨hfree, hcount, id, hids⟩ := CreateGLTexture_ok_true hload
  obtain ⟨r, hr, hcase⟩ := FindTextureSlot_spec s t hwf
  have hwf' : s'.WellFormed := by
    simp only [State.WellFormed, hcount, hids, List.length_set]
    omega
  rcases hcase with ⟨i, hi, rfl⟩ | ⟨hno, _⟩
  · refine ⟨i, hi, hr, FindTextureSlot_of_firstMatch hwf' ⟨by have := hi.1; omega, ?_, ?_⟩⟩
    · rw [tagAt_set_of_ne s s' _ _ i hids (by have := hi.1; omega)]
      exact hi.2.1
    · intro j hj
      rw [tagAt_set_of_ne s s' _ _ j hids (by have := hi.1; omega)]
      exact hi.2.2 j hj
  · obtain ⟨i, hi, hti⟩ := hreg
    exact absurd hti (hno i hi)

/-- Witness for C6: "wood" sits in slot 0; registering a second "wood" in slot 2
leaves the lookup at slot 0. -/
theorem FindTextureSlot_stable_under_load_witness :
    twoTextureState.m_loadedTextures ≤ twoTextureState.m_textureIDs.length ∧
    (∃ i, i < twoTextureState.m_loadedTextures ∧ tagAt twoTextureState i = some "wood") ∧
    CreateGLTexture exampleDecoder twoTextureState "Textures/wood.jpg" "wood"
      = .ok (true, threeTextureState) ∧
    ∃ i, IsFirstMatch twoTextureState "wood" i ∧
      FindTextureSlot twoTextureState "wood" = .ok (i : Int) ∧
      FindTextureSlot threeTextureState "wood" = .ok (i : Int) :=
  have hreg : ∃ i, i < twoTextureState.m_loadedTextures ∧
      tagAt twoTextureState i = some "wood" :=
    ⟨0, by decide, by decide⟩
  have hload : CreateGLTexture exampleDecoder twoTextureState "Textures/wood.jpg" "wood"
      = .ok (true, threeTextureState) := by
    simp [CreateGLTexture, exampleDecoder, twoTextureState, threeTextureState, glGenTextures,
      List.replicate]
  ⟨by decide, hreg, hload,
    FindTextureSlot_stable_under_load exampleDecoder twoTextureState threeTextureState
      "Textures/wood.jpg" "wood" "wood" (by decide) hreg hload⟩

/-! ## Material registry and shader bridge -/

/-- Claim C1 is not met by the code. In the registry that
`DefineObjectMaterials` builds, no material carries the tag "nonexistent", and
yet `FindMaterial("nonexistent", material)` returns `true`, whatever the
output parameter held. -/
theorem FindMaterial_true_for_unregistered_tag (material : OBJECT_MATERIAL ℚ) :
    sceneState.m_objectMaterials.length = 6 ∧
    (∀ m, m ∈ sceneState.m_objectMaterials → m.tag ≠ "nonexistent") ∧
    (FindMaterial sceneState "nonexistent" material).1 = true := by
  refine ⟨by simp [sceneState, DefineObjectMaterials, freshState], ?_, ?_⟩
  · simp [sceneState, DefineObjectMaterials, freshState]
  · simp [FindMaterial, sceneState, DefineObjectMaterials, freshState]

/-- Claim C2 is not met by the code. With the "gold" material in the shader
and a registry in which no material carries "nonexistent",
`SetShaderMaterial("nonexistent")` writes all five material uniforms, with the
contents of its uninitialised local: `material.shininess` is 22 before the
call and 9 (the stale content) after it. -/
theorem SetShaderMaterial_writes_for_unregistered_tag :
    SetShaderMaterial sceneState "gold" staleMaterial = .ok goldShaderState ∧
    (∀ m, m ∈ goldShaderState.m_objectMaterials → m.tag ≠ "nonexistent") ∧
    ∃ sh sh', goldShaderState.m_pShaderManager = some sh ∧
      SetShaderMaterial goldShaderState "nonexistent" staleMaterial
        = .ok { goldShaderState with m_pShaderManager := some sh' } ∧
      sh'.writes =
        [("material.shininess", .float staleMaterial.shininess),
         ("material.specularColor", .vec3 staleMaterial.specularColor),
         ("material.diffuseColor", .vec3 staleMaterial.diffuseColor),
         ("material.ambientStrength", .float staleMaterial.ambientStrength),
         ("material.ambientColor", .vec3 staleMaterial.ambientColor)] ++ sh.writes ∧
      sh.uniform "material.shininess" = some (.float 22) ∧
      sh'.uniform "material.shininess" = some (.float 9) := by
  refine ⟨?_, ?_, ?_⟩
  · simp [SetShaderMaterial, FindMaterial, FindMaterial.loop, sceneState, goldShaderState,
      DefineObjectMaterials, freshState, ShaderManager.setValue]
  · simp [goldShaderState, sceneState, DefineObjectMaterials, freshState]
  · refine ⟨_, _, rfl, ?_, rfl, ?_, ?_⟩
    · simp [SetShaderMaterial, FindMaterial, FindMaterial.loop, sceneState, goldShaderState,
        DefineObjectMaterials, freshState, ShaderManager.setValue]
    · simp [ShaderManager.uniform]
      norm_num
    · simp [ShaderManager.uniform, staleMaterial]

/-- Claim C10 is not met by the code. With a null `m_pShaderManager`,
`SetTransformations`, `SetShaderColor`, `SetShaderTexture` and
`SetTextureUVScale` leave the state as it is for every argument, and so does
`SetShaderMaterial` on an empty material registry; but on a non-empty registry
`SetShaderMaterial` dereferences the null pointer for every tag, for instance
for "glass" in the registry that `DefineObjectMaterials` builds. -/
theorem SetShaderMaterial_null_shader_dereference :
    (∀ (L : MathFns ℚ) (s : State ℚ) (scaleXYZ : Vec3 ℚ) (x y z : ℚ) (positionXYZ : Vec3 ℚ),
      SetTransformations L { s with m_pShaderManager := none } scaleXYZ x y z positionXYZ
        = { s with m_pShaderManager := none }) ∧
    (∀ (s : State ℚ) (r g b a : ℚ),
      SetShaderColor { s with m_pShaderManager := none } r g b a
        = { s with m_pShaderManager := none }) ∧
    (∀ (s : State ℚ) (textureTag : String),
      SetShaderTexture { s with m_pShaderManager := none } textureTag
        = .ok { s with m_pShaderManager := none }) ∧
    (∀ (s : State ℚ) (u v : ℚ),
      SetTextureUVScale { s with m_pShaderManager := none } u v
        = { s with m_pShaderManager := none }) ∧
    (∀ (s : State ℚ) (materialTag : String) (material0 : OBJECT_MATERIAL ℚ),
      SetShaderMaterial { s with m_pShaderManager := none, m_objectMaterials := [] }
          materialTag material0
        = .ok { s with m_pShaderManager := none, m_objectMaterials := [] }) ∧
    (∀ (s : State ℚ) (m : OBJECT_MATERIAL ℚ) (ms : List (OBJECT_MATERIAL ℚ))
        (materialTag : String) (material0 : OBJECT_MATERIAL ℚ),
      SetShaderMaterial { s with m_pShaderManager := none, m_objectMaterials := m :: ms }
          materialTag material0
        = .error .nullDereference) ∧
    SetShaderMaterial { sceneState with m_pShaderManager := none } "glass" staleMaterial
      = .error .nullDereference := by
  refine ⟨?_, ?_, ?_, ?_, ?_, ?_, ?_⟩
  · intro L s scaleXYZ x y z positionXYZ
    rfl
  · intro s r g b a
    rfl
  · intro s textureTag
    rfl
  · intro s u v
    rfl
  · intro s materialTag material0
    simp [SetShaderMaterial]
  · intro s m ms materialTag material0
    simp [SetShaderMaterial, FindMaterial]
  · simp [SetShaderMaterial, FindMaterial, sceneState, DefineObjectMaterials, freshState]

/-! ## Transform composer -/

section Transform

variable {R : Type} [CommRing R]

@[simp] theorem Vec4.add_x (a b : Vec4 R) : (a + b).x = a.x + b.x := rfl
@[simp] theorem Vec4.add_y (a b : Vec4 R) : (a + b).y = a.y + b.y := rfl
@[simp] theorem Vec4.add_z (a b : Vec4 R) : (a + b).z = a.z + b.z := rfl
@[simp] theorem Vec4.add_w (a b : Vec4 R) : (a + b).w = a.w + b.w := rfl
@[simp] theorem Vec4.mul_x (a : Vec4 R) (k : R) : (a * k).x = a.x * k := rfl
@[simp] theorem Vec4.mul_y (a : Vec4 R) (k : R) : (a * k).y = a.y * k := rfl
@[simp] theorem Vec4.mul_z (a : Vec4 R) (k : R) : (a * k).z = a.z * k := rfl
@[simp] theorem Vec4.mul_w (a : Vec4 R) (k : R) : (a * k).w = a.w * k := rfl
@[simp] theorem Vec3.mul3_x (a : Vec3 R) (k : R) : (a * k).x = a.x * k := rfl
@[simp] theorem Vec3.mul3_y (a : Vec3 R) (k : R) : (a * k).y = a.y * k := rfl
@[simp] theorem Vec3.mul3_z (a : Vec3 R) (k : R) : (a * k).z = a.z * k := rfl
@[simp] theorem Vec3.smul_x (k : R) (a : Vec3 R) : (k * a).x = k * a.x := rfl
@[simp] theorem Vec3.smul_y (k : R) (a : Vec3 R) : (k * a).y = k * a.y := rfl
@[simp] theorem Vec3.smul_z (k : R) (a : Vec3 R) : (k * a).z = k * a.z := rfl

theorem Mat4.mulVec_def (m : Mat4 R) (v : Vec4 R) :
    m * v = (m.c0 * v.x + m.c1 * v.y) + (m.c2 * v.z + m.c3 * v.w) := rfl

@[simp] theorem Mat4.mul_c0 (a b : Mat4 R) :
    (a * b).c0 = a.c0 * b.c0.x + a.c1 * b.c0.y + a.c2 * b.c0.z + a.c3 * b.c0.w := rfl
@[simp] theorem Mat4.mul_c1 (a b : Mat4 R) :
    (a * b).c1 = a.c0 * b.c1.x + a.c1 * b.c1.y + a.c2 * b.c1.z + a.c3 * b.c1.w := rfl
@[simp] theorem Mat4.mul_c2 (a b : Mat4 R) :
    (a * b).c2 = a.c0 * b.c2.x + a.c1 * b.c2.y + a.c2 * b.c2.z + a.c3 * b.c2.w := rfl
@[simp] theorem Mat4.mul_c3 (a b : Mat4 R) :
    (a * b).c3 = a.c0 * b.c3.x + a.c1 * b.c3.y + a.c2 * b.c3.z + a.c3 * b.c3.w := rfl

/-- The GLM product of two `mat4` is the matrix product. -/
theorem Mat4.toMatrix_mul (a b : Mat4 R) : (a * b).toMatrix = a.toMatrix * b.toMatrix := by
  ext i j
  fin_cases i <;> fin_cases j <;>
    simp [Mat4.toMatrix, Matrix.mul_apply, Fin.sum_univ_four]

/-- The GLM product `mat4 * vec4` is the matrix-vector product. -/
theorem Mat4.toVector_mulVec (m : Mat4 R) (v : Vec4 R) :
    (m * v).toVector = m.toMatrix.mulVec v.toVector := by
  ext i
  fin_cases i <;>
    simp [Mat4.mulVec_def, Mat4.toMatrix, Vec4.toVector, Matrix.mulVec, Matrix.dotProduct,
      Fin.sum_univ_four] <;> ring

theorem glm.toMatrix_translate1 (v : Vec3 R) : (glm.translate1 v).toMatrix = Spec.Translate v := by
  ext i j
  fin_cases i <;> fin_cases j <;>
    simp [Mat4.toMatrix, Spec.Translate, glm.translate1, glm.translate, glm.mat4_1]

theorem glm.toMatrix_scale1 (v : Vec3 R) : (glm.scale1 v).toMatrix = Spec.Scale v := by
  ext i j
  fin_cases i <;> fin_cases j <;>
    simp [Mat4.toMatrix, Spec.Scale, glm.scale1, glm.scale, glm.mat4_1]

theorem glm.toMatrix_rotate1_X (L : MathFns R) (hinv : L.inversesqrt 1 = 1) (a : R) :
    (glm.rotate1 L a ⟨1, 0, 0⟩).toMatrix = Spec.RotateX (L.cos a) (L.sin a) := by
  ext i j
  fin_cases i <;> fin_cases j <;>
    simp [Mat4.toMatrix, Spec.RotateX, glm.rotate1, glm.rotate, glm.mat4_1, glm.normalize,
      glm.dot, hinv]

theorem glm.toMatrix_rotate1_Y (L : MathFns R) (hinv : L.inversesqrt 1 = 1) (a : R) :
    (glm.rotate1 L a ⟨0, 1, 0⟩).toMatrix = Spec.RotateY (L.cos a) (L.sin a) := by
  ext i j
  fin_cases i <;> fin_cases j <;>
    simp [Mat4.toMatrix, Spec.RotateY, glm.rotate1, glm.rotate, glm.mat4_1, glm.normalize,
      glm.dot, hinv]

theorem glm.toMatrix_rotate1_Z (L : MathFns R) (hinv : L.inversesqrt 1 = 1) (a : R) :
    (glm.rotate1 L a ⟨0, 0, 1⟩).toMatrix = Spec.RotateZ (L.cos a) (L.sin a) := by
  ext i j
  fin_cases i <;> fin_cases j <;>
    simp [Mat4.toMatrix, Spec.RotateZ, glm.rotate1, glm.rotate, glm.mat4_1, glm.normalize,
      glm.dot, hinv]

/-- The two-argument GLM builders multiply the given matrix from the right. -/
theorem glm.translate_eq_mul (m : Mat4 R) (v : Vec3 R) :
    glm.translate m v = m * glm.translate1 v := by
  ext <;> simp [glm.translate, glm.translate1, glm.mat4_1]

theorem glm.rotate_eq_mul (L : MathFns R) (m : Mat4 R) (a : R) (v : Vec3 R) :
    glm.rotate L m a v = m * glm.rotate1 L a v := by
  ext <;> simp [glm.rotate, glm.rotate1, glm.mat4_1]

theorem glm.scale_eq_mul (m : Mat4 R) (v : Vec3 R) : glm.scale m v = m * glm.scale1 v := by
  ext <;> simp [glm.scale, glm.scale1, glm.mat4_1]

theorem glm.mat4_1_mul (m : Mat4 R) : glm.mat4_1 * m = m := by
  ext <;> simp [glm.mat4_1]

end Transform

section TransformClaims

variable {R : Type} [CommRing R]

theorem SetTransformations.toMatrix_modelView (L : MathFns R) (hinv : L.inversesqrt 1 = 1)
    (scaleXYZ : Vec3 R) (rx ry rz : R) (positionXYZ : Vec3 R) :
    (SetTransformations.modelView L scaleXYZ rx ry rz positionXYZ).toMatrix
      = Spec.Compose L scaleXYZ rx ry rz positionXYZ := by
  simp only [SetTransformations.modelView, Spec.Compose, Mat4.toMatrix_mul,
    glm.toMatrix_translate1, glm.toMatrix_scale1, glm.toMatrix_rotate1_X L hinv,
    glm.toMatrix_rotate1_Y L hinv, glm.toMatrix_rotate1_Z L hinv]

theorem SetTransformations.modelView_origin (L : MathFns R)
    (scaleXYZ : Vec3 R) (rx ry rz : R) (positionXYZ : Vec3 R) :
    SetTransformations.modelView L scaleXYZ rx ry rz positionXYZ * (⟨0, 0, 0, 1⟩ : Vec4 R)
      = ⟨positionXYZ.x, positionXYZ.y, positionXYZ.z, 1⟩ := by
  ext <;>
    simp [SetTransformations.modelView, Mat4.mulVec_def, glm.translate1, glm.translate,
      glm.rotate1, glm.rotate, glm.scale1, glm.scale, glm.mat4_1]

/-- Claim C7. With a shader bound, `SetTransformations` writes to the uniform
"model" a matrix that equals, as a 4 x 4 matrix, `Translate(position) ·
RotateX(rotX) · RotateY(rotY) · RotateZ(rotZ) · Scale(scale)` with the angles
converted to radians (the math library returning 1 for `inversesqrt(1)`); that
matrix maps the object-space origin to `position`, whatever the scale and the
rotation are. -/
theorem SetTransformations_writes_composed_matrix (L : MathFns R) (s : State R)
    (sh : ShaderManager R) (scaleXYZ : Vec3 R) (rx ry rz : R) (positionXYZ : Vec3 R)
    (hinv : L.inversesqrt 1 = 1) (hsh : s.m_pShaderManager = some sh) :
    ∃ M : Mat4 R,
      SetTransformations L s scaleXYZ rx ry rz positionXYZ
        = { s with m_pShaderManager := some (sh.setValue "model" (.mat4 M)) } ∧
      M.toMatrix = Spec.Compose L scaleXYZ rx ry rz positionXYZ ∧
      M.toMatrix.mulVec ![0, 0, 0, 1] = positionXYZ.toPoint ∧
      M * (⟨0, 0, 0, 1⟩ : Vec4 R) = ⟨positionXYZ.x, positionXYZ.y, positionXYZ.z, 1⟩ := by
  refine ⟨SetTransformations.modelView L scaleXYZ rx ry rz positionXYZ, ?_,
    SetTransformations.toMatrix_modelView L hinv scaleXYZ rx ry rz positionXYZ, ?_,
    SetTransformations.modelView_origin L scaleXYZ rx ry rz positionXYZ⟩
  · simp [SetTransformations, hsh, g_ModelName]
  · have h := Mat4.toVector_mulVec
      (SetTransformations.modelView L scaleXYZ rx ry rz positionXYZ) ⟨0, 0, 0, 1⟩
    rw [SetTransformations.modelView_origin] at h
    exact h.symm

/-- Claim C8. With all three rotation angles 0 (the math library giving
`cos 0 = 1` and `sin 0 = 0`), the matrix composed by `SetTransformations` for
scale `s` and position `t` maps every point `(x, y, z)` to
`(s.x*x + t.x, s.y*y + t.y, s.z*z + t.z)`; scale (1,1,1) with position (0,0,0)
gives the identity matrix, and scale (2,1,1) with position (5,0,0) maps
(1,0,0) to (7,0,0). -/
theorem SetTransformations_zero_rotation (L : MathFns R)
    (hcos : L.cos (L.radians 0) = 1) (hsin : L.sin (L.radians 0) = 0) :
    (∀ (s t : Vec3 R) (x y z : R),
      SetTransformations.modelView L s 0 0 0 t * (⟨x, y, z, 1⟩ : Vec4 R)
        = ⟨s.x * x + t.x, s.y * y + t.y, s.z * z + t.z, 1⟩) ∧
    SetTransformations.modelView L ⟨1, 1, 1⟩ 0 0 0 ⟨0, 0, 0⟩ = glm.mat4_1 ∧
    SetTransformations.modelView L ⟨2, 1, 1⟩ 0 0 0 ⟨5, 0, 0⟩ * (⟨1, 0, 0, 1⟩ : Vec4 R)
      = ⟨7, 0, 0, 1⟩ := by
  refine ⟨?_, ?_, ?_⟩
  · intro s t x y z
    ext <;>
      simp [SetTransformations.modelView, Mat4.mulVec_def, glm.translate1, glm.translate,
        glm.rotate1, glm.rotate, glm.scale1, glm.scale, glm.mat4_1, hcos, hsin]
  · ext <;>
      simp [SetTransformations.modelView, glm.translate1, glm.translate,
        glm.rotate1, glm.rotate, glm.scale1, glm.scale, glm.mat4_1, hcos, hsin]
  · ext <;>
      simp [SetTransformations.modelView, Mat4.mulVec_def, glm.translate1, glm.translate,
        glm.rotate1, glm.rotate, glm.scale1, glm.scale, glm.mat4_1, hcos, hsin]
    norm_num

end TransformClaims

/-- Witness for C7: scale (2,1,1), angles 30, 45, 60 degrees, position (5,0,0),
with the rational stand-ins for the math library. -/
theorem SetTransformations_writes_composed_matrix_witness :
    exampleMath.inversesqrt 1 = 1 ∧ freshState.m_pShaderManager = some { writes := [] } ∧
    ∃ M : Mat4 ℚ,
      SetTransformations exampleMath freshState ⟨2, 1, 1⟩ 30 45 60 ⟨5, 0, 0⟩
        = { freshState with
            m_pShaderManager :=
              some (ShaderManager.setValue { writes := [] } "model" (.mat4 M)) } ∧
      M.toMatrix = Spec.Compose exampleMath ⟨2, 1, 1⟩ 30 45 60 ⟨5, 0, 0⟩ ∧
      M.toMatrix.mulVec ![0, 0, 0, 1] = Vec3.toPoint (⟨5, 0, 0⟩ : Vec3 ℚ) ∧
      M * (⟨0, 0, 0, 1⟩ : Vec4 ℚ) = ⟨5, 0, 0, 1⟩ :=
  ⟨by norm_num [exampleMath], rfl,
    SetTransformations_writes_composed_matrix exampleMath freshState { writes := [] }
      ⟨2, 1, 1⟩ 30 45 60 ⟨5, 0, 0⟩ (by norm_num [exampleMath]) rfl⟩

/-- Witness for C8: the rational stand-ins for the math library have
`cos 0 = 1` and `sin 0 = 0`. -/
theorem SetTransformations_zero_rotation_witness :
    exampleMath.cos (exampleMath.radians 0) = 1 ∧ exampleMath.sin (exampleMath.radians 0) = 0 ∧
    (∀ (s t : Vec3 ℚ) (x y z : ℚ),
      SetTransformations.modelView exampleMath s 0 0 0 t * (⟨x, y, z, 1⟩ : Vec4 ℚ)
        = ⟨s.x * x + t.x, s.y * y + t.y, s.z * z + t.z, 1⟩) ∧
    SetTransformations.modelView exampleMath ⟨1, 1, 1⟩ 0 0 0 ⟨0, 0, 0⟩ = glm.mat4_1 ∧
    SetTransformations.modelView exampleMath ⟨2, 1, 1⟩ 0 0 0 ⟨5, 0, 0⟩ * (⟨1, 0, 0, 1⟩ : Vec4 ℚ)
      = ⟨7, 0, 0, 1⟩ :=
  ⟨by norm_num [exampleMath], by norm_num [exampleMath], by
    with_reducible_and_instances
      exact SetTransformations_zero_rotation exampleMath
        (by norm_num [exampleMath]) (by norm_num [exampleMath])⟩

/-! ## Compound objects -/

section Compound

variable {R : Type} [LinearOrderedField R]

theorem RenderScene.cupTransform_eq (L : MathFns R) :
    RenderScene.cupTransform L
      = glm.translate1 ⟨6, 1.12, 7⟩ * glm.rotate1 L (L.radians 160) ⟨1, 0, 0⟩
          * glm.scale1 ⟨0.4, 1.1, 0.4⟩ := by
  simp only [RenderScene.cupTransform, glm.translate_eq_mul, glm.rotate_eq_mul, glm.scale_eq_mul,
    glm.mat4_1_mul]
  norm_num

theorem RenderScene.handleTransform_eq (L : MathFns R) :
    RenderScene.handleTransform L
      = RenderScene.cupTransform L * glm.translate1 ⟨1, 0.5, 0⟩
          * glm.rotate1 L (L.radians 90) ⟨0, 10, 90⟩ * glm.scale1 ⟨0.2, 0.2, 0.1⟩ := by
  simp only [RenderScene.handleTransform, glm.translate_eq_mul, glm.rotate_eq_mul,
    glm.scale_eq_mul]
  norm_num

theorem RenderScene.handleTransform_origin (L : MathFns R) (hinv : L.inversesqrt 1 = 1) :
    RenderScene.handleTransform L * (⟨0, 0, 0, 1⟩ : Vec4 R)
      = ⟨6.4, 1.12 + 0.55 * L.cos (L.radians 160), 7 + 0.55 * L.sin (L.radians 160), 1⟩ := by
  ext <;>
    simp [RenderScene.handleTransform, RenderScene.cupTransform, Mat4.mulVec_def, glm.translate,
      glm.rotate, glm.scale, glm.mat4_1, glm.normalize, glm.dot] <;>
    norm_num [hinv] <;> ring

theorem RenderScene.drawHandle_writes_model (L : MathFns R) (s : State R) (sh : ShaderManager R)
    (hsh : s.m_pShaderManager = some sh) (hwf : s.m_loadedTextures ≤ s.m_textureIDs.length) :
    ∃ s' sh', RenderScene.drawHandle L s = .ok s' ∧ s'.m_pShaderManager = some sh' ∧
      sh'.uniform "model" = some (.mat4 (RenderScene.handleTransform L)) := by
  obtain ⟨r, hr0, _⟩ := FindTextureSlot_spec s "stainedglass" hwf
  have hr : ∀ sh1 : ShaderManager R,
      FindTextureSlot { s with m_pShaderManager := some sh1 } "stainedglass" = .ok r :=
    fun _ => hr0
  refine ⟨{ s with
            m_pShaderManager := some
              (((sh.setValue "model" (.mat4 (RenderScene.handleTransform L))).setValue
                g_UseTextureName (.int 1)).setValue g_TextureValueName (.sampler2D r)) },
    _, ?_, rfl, ?_⟩
  · simp only [RenderScene.drawHandle, setMat4ValueUnguarded, hsh, SetShaderTexture, bind,
      Except.bind, hr, pure, Except.pure]
  · simp [ShaderManager.uniform, ShaderManager.setValue, g_TextureValueName, g_UseTextureName]

/-- Claim C9. In `RenderScene` the cup's matrix is `Translate(6, 1.12, 7) ·
RotateX(160°) · Scale(0.4, 1.1, 0.4)` and the handle's matrix is
`cupTransform · Translate(1, 0.5, 0) · Rotate · Scale`; it is that matrix that
the handle's draw writes to the uniform "model". The handle's local origin
therefore lands at `cupTransform · Translate(1, 0.5, 0)` applied to the origin,
which is `(6.4, 1.12 + 0.55 cos 160°, 7 + 0.55 sin 160°)`, and not at the sum
`(7, 1.62, 7)` of the cup's position and the local offset (the math library
returning 1 for `inversesqrt(1)`). -/
theorem RenderScene_handle_inherits_cup_matrix (L : MathFns R) (hinv : L.inversesqrt 1 = 1) :
    (RenderScene.cupTransform L).toMatrix
      = Spec.Translate ⟨6, 1.12, 7⟩
          * Spec.RotateX (L.cos (L.radians 160)) (L.sin (L.radians 160))
          * Spec.Scale ⟨0.4, 1.1, 0.4⟩ ∧
    RenderScene.handleTransform L
      = RenderScene.cupTransform L * glm.translate1 ⟨1, 0.5, 0⟩
          * glm.rotate1 L (L.radians 90) ⟨0, 10, 90⟩ * glm.scale1 ⟨0.2, 0.2, 0.1⟩ ∧
    RenderScene.handleTransform L * (⟨0, 0, 0, 1⟩ : Vec4 R)
      = (RenderScene.cupTransform L * glm.translate1 ⟨1, 0.5, 0⟩) * (⟨0, 0, 0, 1⟩ : Vec4 R) ∧
    RenderScene.handleTransform L * (⟨0, 0, 0, 1⟩ : Vec4 R)
      = ⟨6.4, 1.12 + 0.55 * L.cos (L.radians 160), 7 + 0.55 * L.sin (L.radians 160), 1⟩ ∧
    RenderScene.handleTransform L * (⟨0, 0, 0, 1⟩ : Vec4 R) ≠ ⟨7, 1.62, 7, 1⟩ ∧
    (∀ (s : State R) (sh : ShaderManager R), s.m_pShaderManager = some sh →
      s.m_loadedTextures ≤ s.m_textureIDs.length →
      ∃ s' sh', RenderScene.drawHandle L s = .ok s' ∧ s'.m_pShaderManager = some sh' ∧
        sh'.uniform "model" = some (.mat4 (RenderScene.handleTransform L))) := by
  refine ⟨?_, RenderScene.handleTransform_eq L, ?_, RenderScene.handleTransform_origin L hinv,
    ?_, fun s sh hsh hwf => RenderScene.drawHandle_writes_model L s sh hsh hwf⟩
  · rw [RenderScene.cupTransform_eq]
    simp only [Mat4.toMatrix_mul, glm.toMatrix_translate1, glm.toMatrix_scale1,
      glm.toMatrix_rotate1_X L hinv]
  · rw [RenderScene.handleTransform_eq]
    ext <;> simp [Mat4.mulVec_def, glm.rotate1, glm.rotate, glm.scale1, glm.scale, glm.mat4_1]
  · rw [RenderScene.handleTransform_origin L hinv]
    intro h
    have hx := congrArg Vec4.x h
    norm_num at hx

end Compound

/-- Witness for C9: the rational stand-ins for the math library return 1 for
`inversesqrt 1`, and the handle's origin has x-coordinate 6.4, not 7. -/
theorem RenderScene_handle_inherits_cup_matrix_witness :
    exampleMath.inversesqrt 1 = 1 ∧
    RenderScene.handleTransform exampleMath * (⟨0, 0, 0, 1⟩ : Vec4 ℚ) ≠ ⟨7, 1.62, 7, 1⟩ := by
  refine ⟨by norm_num [exampleMath], ?_⟩
  with_reducible_and_instances
    exact (RenderScene_handle_inherits_cup_matrix exampleMath (by norm_num [exampleMath])).2.2.2.2.1

/-! ## GPU texture objects -/

theorem foldl_max_ge (l : List Nat) : ∀ a x, x = a ∨ x ∈ l → x ≤ l.foldl max a := by
  induction l with
  | nil =>
    intro a x h
    rcases h with h | h
    · simp [h]
    · cases h
  | cons y ys ih =>
    intro a x h
    simp only [List.foldl_cons]
    rcases h with h | h
    · exact le_trans (by simp [h]) (ih (max a y) (max a y) (Or.inl rfl))
    · rcases List.mem_cons.mp h with h | h
      · exact le_trans (by simp [h]) (ih (max a y) (max a y) (Or.inl rfl))
      · exact ih (max a y) x (Or.inr h)

/-- The name that `glGenTextures` returns was not in use, and is in use afterwards;
every name in use stays in use. -/
theorem glGenTextures_fresh (gl : GLContext) :
    ¬ gl.IsLive (glGenTextures gl).1 ∧ (glGenTextures gl).2.IsLive (glGenTextures gl).1 ∧
      (∀ id, gl.IsLive id → (glGenTextures gl).2.IsLive id) ∧
      (glGenTextures gl).2.textures.length = gl.textures.length + 1 := by
  refine ⟨?_, ?_, ?_, ?_⟩
  · intro h
    have := foldl_max_ge gl.textures 0 _ (Or.inr h)
    simp [glGenTextures] at this
  · simp [glGenTextures, GLContext.IsLive]
  · intro id h
    simp only [glGenTextures, GLContext.IsLive, List.mem_cons]
    exact Or.inr h
  · simp [glGenTextures]

/-- The loop of `DestroyGLTextures` entered at `i`: it returns, every texture
that was live is still live, and one texture has been created per remaining entry. -/
theorem DestroyGLTextures.destroy_loop_spec {R : Type} :
    ∀ (k : Nat) (s : State R) (i : Nat), k = s.m_loadedTextures - i →
      s.m_loadedTextures ≤ s.m_textureIDs.length →
      ∃ s', DestroyGLTextures.loop s i = .ok s' ∧
        (∀ id, s.gl.IsLive id → s'.gl.IsLive id) ∧
        s'.gl.textures.length = s.gl.textures.length + k := by
  intro k
  induction k with
  | zero =>
    intro s i hk hwf
    refine ⟨s, ?_, fun _ h => h, rfl⟩
    rw [DestroyGLTextures.loop]
    have : ¬ i < s.m_loadedTextures := by omega
    simp [this]
  | succ k ih =>
    intro s i hk hwf
    have hlt : i < s.m_loadedTextures := by omega
    have hlen : i < s.m_textureIDs.length := lt_of_lt_of_le hlt hwf
    rw [DestroyGLTextures.loop]
    simp only [hlt, dite_true, List.getElem?_eq_getElem hlen]
    obtain ⟨s', hs', hlive, hcount⟩ := ih
      { s with
        gl := (glGenTextures s.gl).2
        m_textureIDs := s.m_textureIDs.set i { s.m_textureIDs[i] with ID := (glGenTextures s.gl).1 } }
      (i + 1) (by simp only; omega) (by simp only [List.length_set]; exact hwf)
    refine ⟨s', hs', ?_, ?_⟩
    · intro id h
      exact hlive id ((glGenTextures_fresh s.gl).2.2.1 id h)
    · rw [hcount]
      simp only [(glGenTextures_fresh s.gl).2.2.2]
      omega

/-- For every registry that fits its table, `DestroyGLTextures` returns, leaves
every live texture live, and creates one texture per registered entry. -/
theorem DestroyGLTextures_releases_nothing {R : Type} (s : State R)
    (hwf : s.m_loadedTextures ≤ s.m_textureIDs.length) :
    ∃ s', DestroyGLTextures s = .ok s' ∧
      (∀ id, s.gl.IsLive id → s'.gl.IsLive id) ∧
      s'.gl.textures.length = s.gl.textures.length + s.m_loadedTextures :=
  DestroyGLTextures.destroy_loop_spec _ s 0 rfl hwf

/-- Claim C11 is not met by the code. With "wood" (texture 1) and "metal"
(texture 2) registered and live, `DestroyGLTextures` leaves textures 1 and 2
live and creates textures 3 and 4, which were not live before: the loop calls
`glGenTextures` where a release was meant. -/
theorem DestroyGLTextures_generates_instead_of_deleting :
    twoTextureState.m_loadedTextures = 2 ∧
    twoTextureState.m_textureIDs.take 2 = [{ ID := 1, tag := "wood" }, { ID := 2, tag := "metal" }] ∧
    twoTextureState.gl.textures = [2, 1] ∧
    DestroyGLTextures twoTextureState = .ok twoTextureStateDestroyed ∧
    twoTextureStateDestroyed.gl.textures = [4, 3, 2, 1] ∧
    twoTextureStateDestroyed.gl.IsLive 1 ∧ twoTextureStateDestroyed.gl.IsLive 2 ∧
    ¬ twoTextureState.gl.IsLive 3 ∧ ¬ twoTextureState.gl.IsLive 4 ∧
    twoTextureStateDestroyed.gl.IsLive 3 ∧ twoTextureStateDestroyed.gl.IsLive 4 := by
  refine ⟨rfl, by simp [twoTextureState], rfl, ?_, rfl, by decide, by decide, by decide,
    by decide, by decide, by decide⟩
  simp [DestroyGLTextures, DestroyGLTextures.loop, twoTextureState, twoTextureStateDestroyed,
    glGenTextures, List.replicate]

/-- For every state and every decoded image whose channel count is neither 3
nor 4, the failing `CreateGLTexture` call has gone through `glGenTextures`. -/
theorem CreateGLTexture_unsupported_channels_gl {R : Type}
    (stbi_load : String → Option Image) (s : State R) (filename tag : String) (image : Image)
    (hload : stbi_load filename = some image)
    (h3 : image.colorChannels ≠ 3) (h4 : image.colorChannels ≠ 4) :
    CreateGLTexture stbi_load s filename tag = .ok (false, { s with gl := (glGenTextures s.gl).2 }) := by
  simp [CreateGLTexture, hload, h3, h4]

/-- Claim C12 is not met by the code. Offered the one-channel image
"Textures/gray.png", `CreateGLTexture` returns `false` after `glGenTextures`
has run: texture 3, not live before the call, is live after it, so the set of
live texture objects has grown. -/
theorem CreateGLTexture_failed_load_creates_texture :
    exampleDecoder "Textures/gray.png" = some { width := 64, height := 64, colorChannels := 1 } ∧
    CreateGLTexture exampleDecoder twoTextureState "Textures/gray.png" "gray"
      = .ok (false, twoTextureStateFailedLoad) ∧
    twoTextureState.gl.textures = [2, 1] ∧
    twoTextureStateFailedLoad.gl.textures = [3, 2, 1] ∧
    ¬ twoTextureState.gl.IsLive 3 ∧ twoTextureStateFailedLoad.gl.IsLive 3 ∧
    twoTextureStateFailedLoad.gl ≠ twoTextureState.gl := by
  refine ⟨by simp [exampleDecoder], ?_, rfl, rfl, by decide, by decide, by decide⟩
  rw [CreateGLTexture_unsupported_channels_gl exampleDecoder twoTextureState
    "Textures/gray.png" "gray" { width := 64, height := 64, colorChannels := 1 }
    (by simp [exampleDecoder]) (by decide) (by decide)]
  simp [twoTextureState, twoTextureStateFailedLoad, glGenTextures]

/-! ## Material lookup: first match -/

theorem FindMaterial.material_loop_found {R : Type} (mats : List (OBJECT_MATERIAL R)) (tag : String)
    (material : OBJECT_MATERIAL R) (index : Nat) :
    FindMaterial.loop mats tag material index true = (material, true) := by
  rw [FindMaterial.loop]
  simp

/-- The loop of `FindMaterial`, entered at `index` with nothing found below it:
either it stops at the first material carrying `tag` and has copied its five
fields, or no material carries `tag` and `material` is as it was. -/
theorem FindMaterial.material_loop_spec {R : Type} (mats : List (OBJECT_MATERIAL R)) (tag : String)
    (material : OBJECT_MATERIAL R) :
    ∀ k index, k = mats.length - index → index ≤ mats.length →
      (∀ j, j < index → ∀ m : OBJECT_MATERIAL R, mats[j]? = some m → m.tag ≠ tag) →
      (∃ (i : Nat) (mi : OBJECT_MATERIAL R), mats[i]? = some mi ∧ mi.tag = tag ∧
          (∀ j, j < i → ∀ m : OBJECT_MATERIAL R, mats[j]? = some m → m.tag ≠ tag) ∧
          FindMaterial.loop mats tag material index false
            = ({ material with
                  ambientColor := mi.ambientColor
                  ambientStrength := mi.ambientStrength
                  diffuseColor := mi.diffuseColor
                  specularColor := mi.specularColor
                  shininess := mi.shininess }, true)) ∨
        ((∀ (j : Nat) (m : OBJECT_MATERIAL R), mats[j]? = some m → m.tag ≠ tag) ∧
          FindMaterial.loop mats tag material index false = (material, false)) := by
  intro k
  induction k with
  | zero =>
    intro index hk hle hpre
    have hidx : index = mats.length := by omega
    refine Or.inr ⟨?_, ?_⟩
    · intro j m hj
      have hlt : j < mats.length := by
        by_contra hge
        rw [List.getElem?_eq_none (Nat.le_of_not_lt hge)] at hj
        cases hj
      exact hpre j (by omega) m hj
    · rw [FindMaterial.loop]
      simp [hidx]
  | succ k ih =>
    intro index hk hle hpre
    have hlt : index < mats.length := by omega
    rw [FindMaterial.loop]
    simp only [hlt, true_and, dite_true]
    by_cases htag : (mats[index]).tag = tag
    · refine Or.inl ⟨index, mats[index], List.getElem?_eq_getElem hlt, htag, hpre, ?_⟩
      simp [htag, FindMaterial.material_loop_found]
    · simp only [htag, if_false]
      apply ih (index + 1) (by omega) (by omega)
      intro j hj m hm
      rcases Nat.lt_succ_iff_lt_or_eq.mp hj with h | h
      · exact hpre j h m hm
      · subst h
        rw [List.getElem?_eq_getElem hlt] at hm
        injection hm with hm
        subst hm
        exact htag

/-- Claim C13. For every material registry and every tag carried by at least
one registered material (duplicates allowed), `FindMaterial` returns `true`
and sets the output's `ambientColor`, `ambientStrength`, `diffuseColor`,
`specularColor` and `shininess` to the values of the lowest-index material
with that tag: there is an index `i` whose material carries the tag, no
material below `i` carries it, and the five output fields are those of
material `i`. -/
theorem FindMaterial_copies_first_match {R : Type} (s : State R) (tag : String)
    (material : OBJECT_MATERIAL R)
    (hreg : ∃ m, m ∈ s.m_objectMaterials ∧ m.tag = tag) :
    ∃ (i : Nat) (mi : OBJECT_MATERIAL R), s.m_objectMaterials[i]? = some mi ∧ mi.tag = tag ∧
      (∀ j, j < i → ∀ m : OBJECT_MATERIAL R, s.m_objectMaterials[j]? = some m → m.tag ≠ tag) ∧
      (FindMaterial s tag material).1 = true ∧
      (FindMaterial s tag material).2.ambientColor = mi.ambientColor ∧
      (FindMaterial s tag material).2.ambientStrength = mi.ambientStrength ∧
      (FindMaterial s tag material).2.diffuseColor = mi.diffuseColor ∧
      (FindMaterial s tag material).2.specularColor = mi.specularColor ∧
      (FindMaterial s tag material).2.shininess = mi.shininess := by
  obtain ⟨m0, hm0, htag0⟩ := hreg
  have hne : s.m_objectMaterials.length ≠ 0 := by
    intro h
    rw [List.length_eq_zero] at h
    rw [h] at hm0
    cases hm0
  rcases FindMaterial.material_loop_spec s.m_objectMaterials tag material _ 0 rfl (Nat.zero_le _)
      (fun j hj => absurd hj (Nat.not_lt_zero j)) with ⟨i, mi, hi, htag, hfirst, hloop⟩ | ⟨hno, _⟩
  · refine ⟨i, mi, hi, htag, hfirst, ?_⟩
    simp [FindMaterial, hne, hloop]
  · obtain ⟨j, hj, hjm⟩ := List.getElem_of_mem hm0
    exact absurd htag0 (hno j m0 (by rw [List.getElem?_eq_getElem hj, hjm]))

/-- Witness for C13: "gold" is carried by material 0 and by a later duplicate
(material 6); the output gets the values of material 0 (shininess 22), not
those of the duplicate (shininess 1). -/
theorem FindMaterial_copies_first_match_witness :
    (∃ m, m ∈ duplicateGoldState.m_objectMaterials ∧ m.tag = "gold") ∧
    (duplicateGoldState.m_objectMaterials.filter (fun m => m.tag = "gold")).length = 2 ∧
    (FindMaterial duplicateGoldState "gold" staleMaterial).2.shininess = 22 ∧
    ∃ (i : Nat) (mi : OBJECT_MATERIAL ℚ), duplicateGoldState.m_objectMaterials[i]? = some mi ∧ mi.tag = "gold" ∧
      (∀ j, j < i →
        ∀ m : OBJECT_MATERIAL ℚ, duplicateGoldState.m_objectMaterials[j]? = some m → m.tag ≠ "gold") ∧
      (FindMaterial duplicateGoldState "gold" staleMaterial).1 = true ∧
      (FindMaterial duplicateGoldState "gold" staleMaterial).2.ambientColor = mi.ambientColor ∧
      (FindMaterial duplicateGoldState "gold" staleMaterial).2.ambientStrength
        = mi.ambientStrength ∧
      (FindMaterial duplicateGoldState "gold" staleMaterial).2.diffuseColor = mi.diffuseColor ∧
      (FindMaterial duplicateGoldState "gold" staleMaterial).2.specularColor = mi.specularColor ∧
      (FindMaterial duplicateGoldState "gold" staleMaterial).2.shininess = mi.shininess :=
  have hreg : ∃ m, m ∈ duplicateGoldState.m_objectMaterials ∧ m.tag = "gold" := by
    simp [duplicateGoldState, sceneState, DefineObjectMaterials, freshState]
  ⟨hreg,
    by simp [duplicateGoldState, sceneState, DefineObjectMaterials, freshState, List.filter],
    by
      simp [FindMaterial, FindMaterial.loop, duplicateGoldState, sceneState,
        DefineObjectMaterials, freshState]
      norm_num,
    FindMaterial_copies_first_match duplicateGoldState "gold" staleMaterial hreg⟩

end SceneManager
